import Mathlib

/-!
Shallow embedding of the control logic of
src/custom_components/smart_thermostat/controllers.py.

Temperatures, tolerances, gains and outputs are embedded as rationals.
Host-adapter queries (hvac mode, actuator on/off state, the result of
condition.state, the result of hass.states.get) enter the control functions as
explicit parameters, since the host is an external collaborator.  A control
tick is embedded as a function returning the list of actuation commands the
tick issues (the source issues at most one per tick).

The keep-alive distinction follows the source: the time argument of
_async_control is None on a normal tick and non-None on a keep-alive tick
(see the comments at lines 388-391, 443 and 455 of the source).
-/

namespace SmartThermostat

/-- Host platform string constant HVAC_MODE_OFF. -/
def HVAC_MODE_OFF : String := "off"

/-- Host platform string constant HVAC_MODE_COOL. -/
def HVAC_MODE_COOL : String := "cool"

/-- Host platform string constant HVAC_MODE_HEAT. -/
def HVAC_MODE_HEAT : String := "heat"

/-- Host platform string constant HVAC_MODE_HEAT_COOL. -/
def HVAC_MODE_HEAT_COOL : String := "heat_cool"

/-- Python exceptions that the embedded code can raise. -/
inductive PyExn where
  | valueError
  | attributeError
  deriving DecidableEq, Repr

/-- Fields shared by every controller, set in AbstractController.__init__
(source lines 54-69). -/
structure ControllerCfg where
  name : String
  mode : String
  target_entity_id : String
  inverted : Bool
  deriving DecidableEq, Repr

/-- AbstractController.__init__ (source lines 54-69): the constructor raises
ValueError when mode is outside [HVAC_MODE_COOL, HVAC_MODE_HEAT]; a raising
constructor produces no instance, so the result is an Except.  (The source
assigns the attributes before the check; since the exception escapes __init__,
only the check decides whether an instance exists.) -/
def AbstractController.init (name mode target_entity_id : String) (inverted : Bool) :
    Except PyExn ControllerCfg :=
  if mode ∈ [HVAC_MODE_COOL, HVAC_MODE_HEAT] then
    .ok ⟨name, mode, target_entity_id, inverted⟩
  else
    .error .valueError

/-- Gain parameters, class PidParams (source lines 185-194), with the field
type as a parameter: set_pid_params handles numeric triples, while the
restore path of async_added_to_hass builds a PidParams out of the three
substrings of str.split. -/
structure PidParams (α : Type) where
  kp : α
  ki : α
  kd : α
  deriving DecidableEq, Repr

/-- PidParams.invert (source lines 191-194) negates all three gains.  The
source mutates in place; the embedding returns the new value. -/
def PidParams.invert (p : PidParams ℚ) : PidParams ℚ :=
  ⟨-p.kp, -p.ki, -p.kd⟩

/-- The dynamically typed values the attribute _current_pid_params can hold:
the typing.Optional[PidParams] placeholder assigned in __init__ (source line
208), Python None, a numeric PidParams, or a PidParams of strings as produced
by the restore path (source lines 221-222, where str.split yields strings that
are never parsed to numbers). -/
inductive PyPidParams where
  | typingSentinel
  | pyNone
  | numParams (p : PidParams ℚ)
  | strParams (p : PidParams String)
  deriving DecidableEq, Repr

/-- Python truthiness of a _current_pid_params value: None is falsy; a
PidParams instance is truthy; the typing.Optional[PidParams] placeholder is a
typing generic alias, which defines no __bool__ and is therefore truthy. -/
def PyPidParams.truthy : PyPidParams → Bool
  | .pyNone => false
  | _ => true

/-- Fields of AbstractPidController relevant to the control logic (source
lines 197-209): __init__ stores the configured defaults in _initial_pid_params
and assigns the typing placeholder Optional[PidParams] to _current_pid_params. -/
structure PidCtrl where
  base : ControllerCfg
  initial_pid_params : PyPidParams
  current_pid_params : PyPidParams
  deriving DecidableEq, Repr

/-- AbstractPidController.__init__ (source lines 198-209), on top of
AbstractController.__init__. -/
def AbstractPidController.init (name mode target_entity_id : String)
    (pid_params : PyPidParams) (inverted : Bool) : Except PyExn PidCtrl :=
  (AbstractController.init name mode target_entity_id inverted).map
    fun base => ⟨base, pid_params, .typingSentinel⟩

/-- Helper of pySplit: walks the remaining characters, collecting the current
piece in reverse in acc and cutting at every separator. -/
def pySplitAux (sep : Char) : List Char → List Char → List String
  | [], acc => [String.mk acc.reverse]
  | c :: cs, acc =>
    if c = sep then String.mk acc.reverse :: pySplitAux sep cs []
    else pySplitAux sep cs (c :: acc)

/-- Python str.split with a one-character separator, as used at source line
221: cuts at every occurrence of the separator and keeps the pieces, empty
pieces included, as strings. -/
def pySplit (s : String) (sep : Char) : List String :=
  pySplitAux sep s.data []

/-- AbstractPidController.async_added_to_hass (source lines 214-234).  The
saved argument is old_state.attributes.get(ATTR_PID_PARAMS); none covers both
a missing old state and a missing attribute.  When the saved string is
non-empty, the tuple unpacking kp, ki, kd = saved.split(',') succeeds exactly
when the split has three pieces (else ValueError) and keeps the pieces as
strings.  The final fallback to the configured defaults runs only when
`not self._current_pid_params` is true, i.e. when the current value is falsy. -/
def AbstractPidController.addedToHass (c : PidCtrl) (saved : Option String) :
    Except PyExn PidCtrl :=
  let restored : Except PyExn PyPidParams :=
    match saved with
    | some s =>
      if s = "" then .ok c.current_pid_params
      else
        match pySplit s ',' with
        | [kp, ki, kd] => .ok (.strParams ⟨kp, ki, kd⟩)
        | _ => .error .valueError
    | none => .ok c.current_pid_params
  match restored with
  | .error e => .error e
  | .ok cur =>
    .ok { c with current_pid_params := if cur.truthy then cur else c.initial_pid_params }

/-- AbstractPidController.set_pid_params (source lines 243-264): None is
rejected with ValueError; in COOL mode the gains are inverted when
`not pid_params.kp < 0`; then, when inverted is configured, they are inverted
once more; the result becomes _current_pid_params. -/
def AbstractPidController.set_pid_params (c : PidCtrl) (pid_params : Option (PidParams ℚ)) :
    Except PyExn PidCtrl :=
  match pid_params with
  | none => .error .valueError
  | some p =>
    let p := if c.base.mode = HVAC_MODE_COOL ∧ ¬ p.kp < 0 then p.invert else p
    let p := if c.base.inverted then p.invert else p
    .ok { c with current_pid_params := .numParams p }

/-- A homeassistant State object as returned by hass.states.get: its state
field is a string. -/
structure HAState where
  state : String
  deriving DecidableEq, Repr

/-- A Python value that can appear as a gain argument of the simple_pid PID
constructor: a number, or a raw string from the restore path. -/
inductive PyVal where
  | num (q : ℚ)
  | str (s : String)
  deriving DecidableEq, Repr

/-- The arguments the source passes to the simple_pid PID constructor on start
(source lines 285-293): the three gain slots, the setpoint, the output limits,
and, when hass.states.get returned a (truthy) State, the last_output passed to
set_auto_mode. -/
structure FeedbackSeed where
  Kp : PyVal
  Ki : PyVal
  Kd : PyVal
  setpoint : ℚ
  output_limits : ℚ × ℚ
  resume_output : Option HAState
  deriving DecidableEq, Repr

/-- Outcome of AbstractPidController._async_start: returned False, returned
True after seeding the feedback loop, or raised an exception. -/
inductive StartResult where
  | failed
  | started (seed : FeedbackSeed)
  | raised (e : PyExn)
  deriving DecidableEq, Repr

/-- AbstractPidController._async_start (source lines 277-301).  Returns False
when _current_pid_params is falsy.  Otherwise it builds
PID(pid_params.kp, pid_params.ki, pid_params.kp, setpoint=target_temp,
output_limits=...): note the third (derivative) argument at source line 286 is
pid_params.kp, not pid_params.kd.  Attribute access .kp on the typing
placeholder Optional[PidParams] raises AttributeError.  current_output is the
result of hass.states.get(target_entity_id); a State object is truthy, so
set_auto_mode is called exactly when it is present. -/
def AbstractPidController.asyncStartBody (c : PidCtrl) (cur_temp target_temp : ℚ)
    (output_limits : ℚ × ℚ) (current_output : Option HAState) : StartResult :=
  let _ := cur_temp
  if ¬ c.current_pid_params.truthy then .failed
  else
    match c.current_pid_params with
    | .pyNone => .failed
    | .typingSentinel => .raised .attributeError
    | .numParams p =>
      .started ⟨.num p.kp, .num p.ki, .num p.kp, target_temp, output_limits, current_output⟩
    | .strParams p =>
      .started ⟨.str p.kp, .str p.ki, .str p.kp, target_temp, output_limits, current_output⟩

/-- Outcome of AbstractController.async_start (source lines 126-149): on a
True result of _async_start the running flag becomes true; on a False result
an error is logged and running stays false; an exception raised inside
_async_start propagates, leaving running false. -/
inductive LifecycleOutcome where
  | ok (running : Bool) (error_logged : Bool)
  | raised (e : PyExn)
  deriving DecidableEq, Repr

/-- AbstractController.async_start (source lines 126-149) applied to the
result of the variant _async_start, starting from running = false. -/
def AbstractController.asyncStartOutcome (r : StartResult) : LifecycleOutcome :=
  match r with
  | .started _ => .ok true false
  | .failed => .ok false true
  | .raised e => .raised e

/-- AbstractController.async_control (source lines 169-178): when running is
false the method returns before reaching the variant body, so no command of
the body is issued. -/
def AbstractController.controlGuard {α : Type} (running : Bool) (body : List α) : List α :=
  if running then body else []

/-- Python equality between the result of hass.states.get (None or a State
object) and a float: None never equals a float, and the State __eq__ compares
only with other State instances, so the comparison is false in both cases. -/
def statesGetEqFloat : Option HAState → ℚ → Bool
  | none, _ => false
  | some _, _ => false

/-- Observable effect of one PID control tick: the setpoint after the tick and
the output passed to _apply_output, when any. -/
structure PidControlEffect where
  setpoint : ℚ
  applied : Option ℚ
  deriving DecidableEq, Repr

/-- AbstractPidController._async_control (source lines 308-331).  The setpoint
is updated when it differs from target_temp.  output = float(self._pid(cur_temp))
is computed by the external simple_pid library and enters here as the output
parameter.  current_output = hass.states.get(target_entity_id) is compared
with the float output by Python !=, and _apply_output(output) runs when they
are unequal. -/
def AbstractPidController.asyncControlBody (setpoint : ℚ) (cur_temp target_temp : ℚ)
    (output : ℚ) (current_output : Option HAState) : PidControlEffect :=
  let _ := cur_temp
  let sp := if setpoint ≠ target_temp then target_temp else setpoint
  if ¬ statesGetEqFloat current_output output then ⟨sp, some output⟩
  else ⟨sp, none⟩

/-- An actuation command issued through the host service-call interface:
SERVICE_TURN_ON or SERVICE_TURN_OFF. -/
inductive Service where
  | turn_on
  | turn_off
  deriving DecidableEq, Repr

/-- SwitchController._async_turn_on (source lines 362-368): the service is
SERVICE_TURN_ON unless inverted, in which case it is SERVICE_TURN_OFF. -/
def SwitchController.turnOnService (inverted : Bool) : Service :=
  if inverted then .turn_off else .turn_on

/-- SwitchController._async_turn_off (source lines 370-376): the service is
SERVICE_TURN_OFF unless inverted, in which case it is SERVICE_TURN_ON. -/
def SwitchController.turnOffService (inverted : Bool) : Service :=
  if inverted then .turn_on else .turn_off

/-- Fields of SwitchController (source lines 344-357), on top of the base
controller fields.  min_cycle_duration is an optional duration, embedded as an
optional rational number of seconds. -/
structure SwitchCfg where
  base : ControllerCfg
  cold_tolerance : ℚ
  hot_tolerance : ℚ
  min_cycle_duration : Option ℚ
  deriving DecidableEq, Repr

/-- SwitchController.__init__ (source lines 344-357), on top of
AbstractController.__init__. -/
def SwitchController.init (name mode target_entity_id : String)
    (cold_tolerance hot_tolerance : ℚ) (inverted : Bool)
    (min_cycle_duration : Option ℚ) : Except PyExn SwitchCfg :=
  (AbstractController.init name mode target_entity_id inverted).map
    fun base => ⟨base, cold_tolerance, hot_tolerance, min_cycle_duration⟩

/-- Python truthiness of the Optional timedelta _min_cycle_duration (tested at
source line 392): None is falsy and a zero timedelta is falsy. -/
def durationTruthy : Option ℚ → Bool
  | none => false
  | some d => decide (d ≠ 0)

/-- Result of the condition.state host call at source lines 398-403: a boolean
saying whether the actuator has held its current state at least
min_cycle_duration, or a ConditionError. -/
inductive ConditionStateResult where
  | ok (long_enough : Bool)
  | conditionError
  deriving DecidableEq, Repr

/-- Host-adapter inputs of one switch-controller tick: the hvac mode reported
by the thermostat, the on/off state of the target entity, and the result of
the condition.state query. -/
structure SwitchEnv where
  hvac_mode : String
  is_on : Bool
  condition_state : ConditionStateResult
  deriving DecidableEq, Repr

/-- Source lines 410-423: too_cold, too_hot and the need_turn_on decision. -/
def SwitchController.needTurnOn (cfg : SwitchCfg) (env : SwitchEnv)
    (cur_temp target_temp : ℚ) : Bool :=
  let too_cold := decide (cur_temp ≤ target_temp - cfg.cold_tolerance)
  let too_hot := decide (cur_temp ≥ target_temp + cfg.hot_tolerance)
  (too_hot && decide (cfg.base.mode = HVAC_MODE_COOL) &&
    (decide (env.hvac_mode = HVAC_MODE_COOL) || decide (env.hvac_mode = HVAC_MODE_HEAT_COOL)))
  || (too_cold && decide (cfg.base.mode = HVAC_MODE_HEAT) &&
    (decide (env.hvac_mode = HVAC_MODE_HEAT) || decide (env.hvac_mode = HVAC_MODE_HEAT_COOL)))

/-- Source lines 436-461: the actuation decision after the gate.  When the
actuator is on: turn off when need_turn_on is false, and re-issue turn-on when
need_turn_on is true and the time argument is not None (keep-alive).  When the
actuator is off: turn on when need_turn_on is true, and re-issue turn-off when
need_turn_on is false and the time argument is not None. -/
def SwitchController.controlDecision (cfg : SwitchCfg) (env : SwitchEnv)
    (cur_temp target_temp : ℚ) (time : Option ℚ) : List Service :=
  if env.is_on then
    if ¬ SwitchController.needTurnOn cfg env cur_temp target_temp then
      [SwitchController.turnOffService cfg.base.inverted]
    else if time ≠ none then
      [SwitchController.turnOnService cfg.base.inverted]
    else []
  else
    if SwitchController.needTurnOn cfg env cur_temp target_temp then
      [SwitchController.turnOnService cfg.base.inverted]
    else if time ≠ none then
      [SwitchController.turnOffService cfg.base.inverted]
    else []

/-- SwitchController._async_control (source lines 387-461).  The min-cycle
gate (lines 392-408) runs only when force is false, the time argument is None
(normal tick) and _min_cycle_duration is truthy; a ConditionError from
condition.state is caught and treated as long_enough = False; when not long
enough the method returns with no command.  Otherwise the decision logic of
lines 410-461 runs. -/
def SwitchController.asyncControlBody (cfg : SwitchCfg) (env : SwitchEnv)
    (cur_temp target_temp : ℚ) (time : Option ℚ) (force : Bool) : List Service :=
  if ¬ force ∧ time = none ∧ durationTruthy cfg.min_cycle_duration then
    let long_enough :=
      match env.condition_state with
      | .ok b => b
      | .conditionError => false
    if !long_enough then []
    else SwitchController.controlDecision cfg env cur_temp target_temp time
  else SwitchController.controlDecision cfg env cur_temp target_temp time

/-- A PID controller as left by __init__ when configured with pid_params equal
to None: _initial_pid_params is None and _current_pid_params is the typing
placeholder Optional[PidParams]. -/
def pidNoParamsCtrl : PidCtrl :=
  ⟨⟨"pid", HVAC_MODE_HEAT, "number.valve", false⟩, .pyNone, .typingSentinel⟩

/-- A PID controller as left by __init__ with configured default gains
kp = 2.5, ki = 0.1, kd = 0. -/
def pidDefaultsCtrl : PidCtrl :=
  ⟨⟨"pid", HVAC_MODE_HEAT, "number.valve", false⟩, .numParams ⟨5/2, 1/10, 0⟩, .typingSentinel⟩

/-- A PID controller whose current gain parameters are kp = 1, ki = 3, kd = 2. -/
def pidGainsCtrl : PidCtrl :=
  ⟨⟨"pid", HVAC_MODE_HEAT, "number.valve", false⟩, .pyNone, .numParams ⟨1, 3, 2⟩⟩

/-- A cooling-mode PID controller with inverted not configured. -/
def pidCoolCtrl : PidCtrl :=
  ⟨⟨"pid", HVAC_MODE_COOL, "number.valve", false⟩, .pyNone, .typingSentinel⟩

/-- A heating switch controller with half-degree tolerances and no
min_cycle_duration. -/
def switchHeatCfg : SwitchCfg :=
  ⟨⟨"heater", HVAC_MODE_HEAT, "switch.heater", false⟩, 1/2, 1/2, none⟩

/-- A heating switch controller with half-degree tolerances and a five-minute
min_cycle_duration. -/
def switchHeatGatedCfg : SwitchCfg :=
  ⟨⟨"heater", HVAC_MODE_HEAT, "switch.heater", false⟩, 1/2, 1/2, some 300⟩

/-! Theorems about the claims. -/

/-- C1, counterexample: at cur_temp = target_temp = 20 with half-degree
tolerances (so too_cold and too_hot are both false), a Normal tick with the
min-cycle gate absent and the actuator currently on issues a turn-off command,
so the claim that no actuation command is issued inside the dead band
regardless of the actuator state is false. -/
theorem c1_deadband_no_command_counterexample :
    ¬ ((20 : ℚ) ≤ 20 - switchHeatCfg.cold_tolerance) ∧
    ¬ ((20 : ℚ) ≥ 20 + switchHeatCfg.hot_tolerance) ∧
    SwitchController.asyncControlBody switchHeatCfg
      ⟨HVAC_MODE_HEAT, true, .ok true⟩ 20 20 none false = [.turn_off] ∧
    ([Service.turn_off] : List Service) ≠ [] := by
  refine ⟨by norm_num [switchHeatCfg], by norm_num [switchHeatCfg], ?_, by simp⟩
  norm_num [SwitchController.asyncControlBody, SwitchController.controlDecision,
    SwitchController.needTurnOn, durationTruthy, SwitchController.turnOffService,
    switchHeatCfg, HVAC_MODE_HEAT, HVAC_MODE_COOL, HVAC_MODE_HEAT_COOL]

/-- C1, amended: inside the dead band (too_cold and too_hot both false), on a
Normal tick with the min-cycle gate not blocking, an actuator that is off
receives no command, while an actuator that is on receives a turn-off command
(the code turns off whenever need_turn_on is false). -/
theorem c1_deadband_commands (cfg : SwitchCfg) (env : SwitchEnv) (cur target : ℚ)
    (hcold : ¬ cur ≤ target - cfg.cold_tolerance)
    (hhot : ¬ cur ≥ target + cfg.hot_tolerance)
    (hgate : durationTruthy cfg.min_cycle_duration = false ∨
      env.condition_state = .ok true) :
    SwitchController.asyncControlBody cfg env cur target none false =
      (if env.is_on then [SwitchController.turnOffService cfg.base.inverted] else []) := by
  have hno : SwitchController.needTurnOn cfg env cur target = false := by
    simp [SwitchController.needTurnOn, decide_eq_false hcold, decide_eq_false hhot]
  have hd : SwitchController.controlDecision cfg env cur target none =
      (if env.is_on then [SwitchController.turnOffService cfg.base.inverted] else []) := by
    simp [SwitchController.controlDecision, hno]
  unfold SwitchController.asyncControlBody
  rcases hgate with h | h
  · simp [h, hd]
  · by_cases hdur : durationTruthy cfg.min_cycle_duration <;> simp [h, hdur, hd]

/-- C1, witness for the amended claim at cur_temp = target_temp = 20,
half-degree tolerances, the actuator on. -/
theorem c1_deadband_commands_witness :
    SwitchController.asyncControlBody switchHeatCfg
      ⟨HVAC_MODE_HEAT, true, .ok true⟩ 20 20 none false =
      [SwitchController.turnOffService false] := by
  have h := c1_deadband_commands switchHeatCfg ⟨HVAC_MODE_HEAT, true, .ok true⟩ 20 20
    (by norm_num [switchHeatCfg]) (by norm_num [switchHeatCfg])
    (Or.inl (by norm_num [switchHeatCfg, durationTruthy]))
  simpa [switchHeatCfg] using h

/-- C2 fails on the code: on start the feedback loop is constructed as
PID(kp, ki, kp, ...) (source line 286), so the derivative slot receives kp,
not kd.  With current gains kp = 1, ki = 3, kd = 2 the seed has Kp = 1,
Ki = 3, setpoint = target_temp = 21 and the given output limits as the claim
says, but Kd = 1 instead of 2. -/
theorem c2_pid_start_seed_bug :
    AbstractPidController.asyncStartBody pidGainsCtrl 25 21 (0, 100) none =
      .started ⟨.num 1, .num 3, .num 1, 21, (0, 100), none⟩ ∧
    pidGainsCtrl.current_pid_params = .numParams ⟨1, 3, 2⟩ ∧
    (PyVal.num 1 : PyVal) ≠ .num 2 := by
  refine ⟨rfl, rfl, by decide⟩

/-- C3 fails on the code.  First conjunct: restoring the persisted string
"2.5,0.1,0.0" stores the three split substrings unparsed, so the active
parameters are the strings "2.5", "0.1", "0.0", not numbers.  Second and
third conjuncts: with no persisted string, _current_pid_params stays the
typing placeholder assigned in __init__, because the placeholder is truthy and
the fallback `if not self._current_pid_params` never fires; the configured
defaults (the fourth conjunct shows they differ) never become active. -/
theorem c3_pid_params_restore_bug :
    AbstractPidController.addedToHass pidDefaultsCtrl (some "2.5,0.1,0.0") =
      .ok { pidDefaultsCtrl with current_pid_params := .strParams ⟨"2.5", "0.1", "0.0"⟩ } ∧
    AbstractPidController.addedToHass pidDefaultsCtrl none = .ok pidDefaultsCtrl ∧
    pidDefaultsCtrl.current_pid_params = .typingSentinel ∧
    PyPidParams.typingSentinel ≠ pidDefaultsCtrl.initial_pid_params := by
  refine ⟨rfl, rfl, rfl, by simp [pidDefaultsCtrl]⟩

/-- C4: set_pid_params in COOL mode inverts the gains exactly when the
supplied kp is not negative, and inverts once more when inverted is
configured; hence with inverted = false the stored kp is nonpositive for every
input sign, and with inverted = true the final value is the inversion of the
non-inverted result, whose kp is nonnegative. -/
theorem c4_set_pid_params_cool_normalization (c : PidCtrl) (p : PidParams ℚ)
    (hmode : c.base.mode = HVAC_MODE_COOL) :
    AbstractPidController.set_pid_params c (some p) =
      .ok { c with
            current_pid_params := PyPidParams.numParams
              (if c.base.inverted then (if 0 ≤ p.kp then p.invert else p).invert
               else (if 0 ≤ p.kp then p.invert else p)) } ∧
    (c.base.inverted = false → (if 0 ≤ p.kp then p.invert else p).kp ≤ 0) ∧
    (c.base.inverted = true → 0 ≤ (if 0 ≤ p.kp then p.invert else p).invert.kp) := by
  refine ⟨?_, ?_, ?_⟩
  · by_cases h : 0 ≤ p.kp <;>
      simp [AbstractPidController.set_pid_params, hmode, not_lt, h]
  · intro _
    by_cases h : 0 ≤ p.kp
    · rw [if_pos h]
      simpa [PidParams.invert, neg_nonpos] using h
    · rw [if_neg h]
      exact (not_le.mp h).le
  · intro _
    by_cases h : 0 ≤ p.kp
    · rw [if_pos h]
      simpa [PidParams.invert] using h
    · rw [if_neg h]
      simpa [PidParams.invert, neg_nonneg] using (not_le.mp h).le

/-- C4, witness: a cooling controller without inversion turns the supplied
gains (2, 3, 4) into (-2, -3, -4). -/
theorem c4_set_pid_params_cool_normalization_witness :
    AbstractPidController.set_pid_params pidCoolCtrl (some ⟨2, 3, 4⟩) =
      .ok { pidCoolCtrl with current_pid_params := .numParams (PidParams.invert ⟨2, 3, 4⟩) } := by
  have h := (c4_set_pid_params_cool_normalization pidCoolCtrl ⟨2, 3, 4⟩ rfl).1
  have h2 : (0 : ℚ) ≤ (2 : ℚ) := by norm_num
  simpa [pidCoolCtrl, h2] using h

/-- C5: on a Normal tick (time argument None) with force = false and a truthy
min_cycle_duration, a condition.state answer of False (actuator state held
less than min_cycle_duration) or a ConditionError both make the tick return
with no command; the same tick with force = true skips the gate and runs the
decision logic. -/
theorem c5_min_cycle_gating (cfg : SwitchCfg) (env : SwitchEnv) (cur target : ℚ)
    (hdur : durationTruthy cfg.min_cycle_duration = true)
    (hgate : env.condition_state = .ok false ∨ env.condition_state = .conditionError) :
    SwitchController.asyncControlBody cfg env cur target none false = [] ∧
    SwitchController.asyncControlBody cfg env cur target none true =
      SwitchController.controlDecision cfg env cur target none := by
  constructor
  · unfold SwitchController.asyncControlBody
    rcases hgate with h | h <;> simp [hdur, h]
  · unfold SwitchController.asyncControlBody
    simp

/-- C5, witness: a heating controller with a five-minute min_cycle_duration,
the actuator on for less than that, cur_temp = target_temp = 20: the gated
tick issues nothing, the forced tick runs the decision logic (here: turn off). -/
theorem c5_min_cycle_gating_witness :
    SwitchController.asyncControlBody switchHeatGatedCfg
      ⟨HVAC_MODE_HEAT, true, .ok false⟩ 20 20 none false = [] ∧
    SwitchController.asyncControlBody switchHeatGatedCfg
      ⟨HVAC_MODE_HEAT, true, .ok false⟩ 20 20 none true =
      SwitchController.controlDecision switchHeatGatedCfg
        ⟨HVAC_MODE_HEAT, true, .ok false⟩ 20 20 none :=
  c5_min_cycle_gating switchHeatGatedCfg ⟨HVAC_MODE_HEAT, true, .ok false⟩ 20 20
    (by norm_num [switchHeatGatedCfg, durationTruthy]) (Or.inl rfl)

/-- C6: on a keep-alive tick (time argument not None), an actuator that is on
with need_turn_on true gets the turn-on command re-issued, and an actuator
that is off with need_turn_on false gets the turn-off command re-issued. -/
theorem c6_keepalive_reassertion (cfg : SwitchCfg) (env : SwitchEnv)
    (cur target t : ℚ) (force : Bool) :
    (env.is_on = true → SwitchController.needTurnOn cfg env cur target = true →
      SwitchController.asyncControlBody cfg env cur target (some t) force =
        [SwitchController.turnOnService cfg.base.inverted]) ∧
    (env.is_on = false → SwitchController.needTurnOn cfg env cur target = false →
      SwitchController.asyncControlBody cfg env cur target (some t) force =
        [SwitchController.turnOffService cfg.base.inverted]) := by
  constructor <;> intro hon hneed <;>
    simp [SwitchController.asyncControlBody, SwitchController.controlDecision, hon, hneed]

/-- C6, witness: a heating keep-alive tick with the actuator on and the room
too cold re-issues turn-on; with the actuator off and the room inside the band
it re-issues turn-off. -/
theorem c6_keepalive_reassertion_witness :
    SwitchController.asyncControlBody switchHeatCfg
      ⟨HVAC_MODE_HEAT, true, .ok true⟩ 10 20 (some 1) false =
      [SwitchController.turnOnService false] ∧
    SwitchController.asyncControlBody switchHeatCfg
      ⟨HVAC_MODE_HEAT, false, .ok true⟩ 20 20 (some 1) false =
      [SwitchController.turnOffService false] := by
  constructor
  · have h := (c6_keepalive_reassertion switchHeatCfg ⟨HVAC_MODE_HEAT, true, .ok true⟩
      10 20 1 false).1 rfl
      (by norm_num [SwitchController.needTurnOn, switchHeatCfg,
        HVAC_MODE_HEAT, HVAC_MODE_COOL, HVAC_MODE_HEAT_COOL])
    simpa [switchHeatCfg] using h
  · have h := (c6_keepalive_reassertion switchHeatCfg ⟨HVAC_MODE_HEAT, false, .ok true⟩
      20 20 1 false).2 rfl
      (by norm_num [SwitchController.needTurnOn, switchHeatCfg,
        HVAC_MODE_HEAT, HVAC_MODE_COOL, HVAC_MODE_HEAT_COOL])
    simpa [switchHeatCfg] using h

/-- C7 fails on the code: the guard at source lines 321-322 compares the
result of hass.states.get (None or a State object) with the float output
using Python !=, which is always unequal, so _apply_output runs on every tick.
Here the target entity reports the state string "50.0" and the computed output
is 50, yet the output is applied. -/
theorem c7_pid_output_always_applied_bug :
    statesGetEqFloat (some ⟨"50.0"⟩) 50 = false ∧
    AbstractPidController.asyncControlBody 21 20 21 50 (some ⟨"50.0"⟩) =
      ⟨21, some 50⟩ ∧
    (∀ co : Option HAState, ∀ x : ℚ, statesGetEqFloat co x = false) := by
  refine ⟨rfl, ?_, ?_⟩
  · simp [AbstractPidController.asyncControlBody, statesGetEqFloat]
  · intro co x
    cases co <;> rfl

/-- C8 fails on the code: a PID controller constructed with pid_params = None
and restored with no persisted gain parameters keeps the truthy typing
placeholder in _current_pid_params, so the missing-parameters guard at source
lines 280-282 never fires; instead _async_start reaches pid_params.kp on the
placeholder and raises AttributeError, rather than reporting a failure and
returning False. -/
theorem c8_missing_pid_params_start_bug :
    AbstractPidController.init "pid" HVAC_MODE_HEAT "number.valve" .pyNone false =
      .ok pidNoParamsCtrl ∧
    AbstractPidController.addedToHass pidNoParamsCtrl none = .ok pidNoParamsCtrl ∧
    AbstractPidController.asyncStartBody pidNoParamsCtrl 20 21 (0, 100) none =
      .raised .attributeError ∧
    AbstractController.asyncStartOutcome (.raised .attributeError) =
      .raised .attributeError ∧
    StartResult.raised .attributeError ≠ .failed := by
  refine ⟨rfl, rfl, rfl, rfl, by simp⟩

/-- C9: inverting the gain parameters twice restores all three fields. -/
theorem c9_invert_involutive (p : PidParams ℚ) : p.invert.invert = p := by
  simp [PidParams.invert]

/-- C10: constructing a switch controller or a PID controller raises
ValueError exactly when the mode is outside [HVAC_MODE_COOL, HVAC_MODE_HEAT],
and succeeds with an instance exactly for COOL and HEAT. -/
theorem c10_mode_validation (name mode te : String) (inverted : Bool)
    (ct ht : ℚ) (mcd : Option ℚ) (pp : PyPidParams) :
    (mode ∉ [HVAC_MODE_COOL, HVAC_MODE_HEAT] →
      SwitchController.init name mode te ct ht inverted mcd = .error .valueError ∧
      AbstractPidController.init name mode te pp inverted = .error .valueError) ∧
    (mode ∈ [HVAC_MODE_COOL, HVAC_MODE_HEAT] →
      SwitchController.init name mode te ct ht inverted mcd =
        .ok ⟨⟨name, mode, te, inverted⟩, ct, ht, mcd⟩ ∧
      AbstractPidController.init name mode te pp inverted =
        .ok ⟨⟨name, mode, te, inverted⟩, pp, .typingSentinel⟩) := by
  constructor <;> intro h <;>
    simp [SwitchController.init, AbstractPidController.init, AbstractController.init,
      h, Except.map]

/-- C10, witness: mode "fan_only" is rejected for both controller kinds, while
mode HVAC_MODE_HEAT constructs both. -/
theorem c10_mode_validation_witness :
    (SwitchController.init "n" "fan_only" "e" 1 1 false none = .error .valueError ∧
     AbstractPidController.init "n" "fan_only" "e" .pyNone false = .error .valueError) ∧
    (SwitchController.init "n" HVAC_MODE_HEAT "e" 1 1 false none =
        .ok ⟨⟨"n", HVAC_MODE_HEAT, "e", false⟩, 1, 1, none⟩ ∧
     AbstractPidController.init "n" HVAC_MODE_HEAT "e" .pyNone false =
        .ok ⟨⟨"n", HVAC_MODE_HEAT, "e", false⟩, .pyNone, .typingSentinel⟩) :=
  ⟨(c10_mode_validation "n" "fan_only" "e" false 1 1 none .pyNone).1
      (by simp [HVAC_MODE_COOL, HVAC_MODE_HEAT]),
   (c10_mode_validation "n" HVAC_MODE_HEAT "e" false 1 1 none .pyNone).2
      (by simp)⟩

end SmartThermostat
